import Mathlib

/-!
Shallow embedding of the `mellium.im/issues` migration tool (issues.go and
the Bitbucket export schema).  The source contains two revisions of `main`:
an import-API variant (which parses the Retry-After header in `wait` and
contains an unconditional `panic("DONE")` after a successful create call)
and a create/edit variant (which creates each issue via the regular issues
API and then closes it with an edit call when its status maps to closed).

Strings are modelled with Lean `String`; Go's `strings.ToLower` is modelled
with `String.toLower` (ASCII case folding, which agrees with Go on all the
ASCII status keywords the code matches against).  Durations (`time.Duration`,
an int64 nanosecond count) are modelled as `Int` with explicit two's
complement wrapping where Go multiplication can overflow.
-/

namespace Issues

/-- The fields of one issue record of the Bitbucket export (`export.Issues`
in bitbucket.go) that the migration loop reads.  Ordinal `id` is `int`,
`component` is `*string`; the remaining fields the loop uses are strings. -/
structure SourceIssue where
  id : Int
  title : String
  content : String
  status : String
  priority : String
  kind : String
  component : Option String
  reporter : String
deriving Repr, DecidableEq

/-- Go `strings.ToLower`, character by character.  The code only ever
compares the result against ASCII keywords, on which `Char.toLower`
agrees with Go's `unicode.ToLower`. -/
def goToLower (s : String) : String := String.mk (s.data.map Char.toLower)

/-- Go `strings.Split(s, ",")`: the substrings between commas, keeping
empty elements; splitting the empty string yields one empty element. -/
def splitComma (acc : List Char) : List Char → List String
  | [] => [String.mk acc.reverse]
  | c :: rest =>
    if c = ',' then String.mk acc.reverse :: splitComma [] rest
    else splitComma (c :: acc) rest

/-- The closed statuses of the `switch strings.ToLower(issue.Status)`:
`case "resolved", "closed", "invalid", "wontfix", "duplicate"`. -/
def isClosedStatus (l : String) : Bool :=
  l == "resolved" || l == "closed" || l == "invalid" || l == "wontfix" || l == "duplicate"

/-- The open statuses of the switch: `case "new", "open", "on hold", "onhold"`
(the branch body is empty, leaving the state open). -/
def isOpenStatus (l : String) : Bool :=
  l == "new" || l == "open" || l == "on hold" || l == "onhold"

/-- The status mapper of the spec, read off the switch statement shared by
both revisions of `main`: the first component is the closed flag (`closed`
in the import-API revision, `state == "closed"` in the create/edit one) and
the second is whether the status was recognized, i.e. whether the switch
avoided its `default` branch (which logs "Found unknown status"). -/
def statusMapper (status : String) : Bool × Bool :=
  let l := goToLower status
  if isClosedStatus l then (true, true)
  else if isOpenStatus l then (false, true)
  else (false, false)

/-- The `state` string computed by the create/edit revision of `main`:
`state := "open"`, set to `"closed"` by the first case of the switch. -/
def issueState (status : String) : String :=
  if isClosedStatus (goToLower status) then "closed" else "open"

/-- Label derivation at the top of the migration loop (both revisions):
`labels := strings.Split(labels, ",")` followed by conditional appends of
priority, kind, `*component`, and the raw status.  Note `strings.Split`
never drops empty elements. -/
def deriveLabels (extraLabels : String) (issue : SourceIssue) : List String :=
  let labels := splitComma [] extraLabels.data
  let labels := if issue.priority ≠ "" then labels ++ [issue.priority] else labels
  let labels := if issue.kind ≠ "" then labels ++ [issue.kind] else labels
  let labels :=
    match issue.component with
    | some c => if c ≠ "" then labels ++ [c] else labels
    | none => labels
  if issue.status ≠ "" then labels ++ [issue.status] else labels

/-- Skip resolution of the import-API revision: with `n` existing issues on
the destination, `if len(issues.Issues) <= n { issues.Issues =
issues.Issues[len(issues.Issues):] } else { issues.Issues = issues.Issues[n:] }`. -/
def resolveSkip (issues : List SourceIssue) (n : Nat) : List SourceIssue :=
  if issues.length ≤ n then issues.drop issues.length else issues.drop n

/-- A convenient source issue with the given ordinal and status and empty
optional fields, used for concrete scenarios. -/
def mkIssue (id : Int) (status : String) : SourceIssue :=
  { id := id, title := "", content := "", status := status,
    priority := "", kind := "", component := none, reporter := "" }

/-! ### Rate-limit governor

`wait` (the import-API revision) reads the Retry-After header and computes
a `time.Duration`: empty header gives one second; otherwise `strconv.Atoi`
interprets the value as whole seconds; otherwise `time.ParseDuration` is
tried; on total failure the fallback is one second.  We model the two
standard-library parsers faithfully on Lean strings, with Go's `int64`
bounds made explicit via `Nat`/`Int` arithmetic. -/

/-- `time.Second` in nanoseconds (Go's `Duration` unit). -/
def second : Int := 1000000000

/-- Two's complement wrap into Go's `int64`, for the `Duration(n) * Second`
multiplication in `wait`, which can overflow for a huge header value. -/
def wrap64 (n : Int) : Int := (n + 2 ^ 63) % 2 ^ 64 - 2 ^ 63

/-- Go `strconv.Atoi`: optional sign, then one or more ASCII digits, with
an `int64` range check (out-of-range input makes `Atoi` return `ErrRange`,
which `wait` treats the same as a syntax error).  `none` models a non-nil
error. -/
def atoi (s : String) : Option Int :=
  match s.data with
  | [] => none
  | c :: rest =>
    let (neg, digits) :=
      if c = '-' then (true, rest)
      else if c = '+' then (false, rest)
      else (false, c :: rest)
    if digits = [] then none
    else if digits.all Char.isDigit then
      let n : Nat := digits.foldl (fun a d => a * 10 + (d.toNat - 48)) 0
      let v : Int := if neg then -(n : Int) else (n : Int)
      if -(2 ^ 63) ≤ v ∧ v ≤ 2 ^ 63 - 1 then some v else none
    else none

/-- `time.leadingInt`: consume leading digits into a `uint64` accumulator,
failing (`none`) on overflow past `1<<63`. -/
def leadingInt (x : Nat) : List Char → Option (Nat × List Char)
  | [] => some (x, [])
  | c :: rest =>
    if c.isDigit then
      if x > 2 ^ 63 / 10 then none
      else
        let y := x * 10 + (c.toNat - 48)
        if y > 2 ^ 63 then none else leadingInt y rest
    else some (x, c :: rest)

/-- `time.leadingFraction`: consume digits after the decimal point into
`(x, scale)` with `value = x / scale`, silently stopping accumulation (but
still consuming digits) once it would overflow.  Go keeps `scale` in a
`float64`; claims never exercise fractional values, so `Nat` is exact here. -/
def leadingFraction (x scale : Nat) (overflow : Bool) : List Char → Nat × Nat × List Char
  | [] => (x, scale, [])
  | c :: rest =>
    if c.isDigit then
      if overflow then leadingFraction x scale true rest
      else if x > (2 ^ 63 - 1) / 10 then leadingFraction x scale true rest
      else
        let y := x * 10 + (c.toNat - 48)
        if y > 2 ^ 63 then leadingFraction x scale true rest
        else leadingFraction y (scale * 10) false rest
    else (x, scale, c :: rest)

/-- `time.unitMap`: nanoseconds per duration unit. -/
def unitValue : String → Option Nat
  | "ns" => some 1
  | "us" => some 1000
  | "µs" => some 1000
  | "μs" => some 1000
  | "ms" => some 1000000
  | "s" => some 1000000000
  | "m" => some 60000000000
  | "h" => some 3600000000000
  | _ => none

/-- Length of the unit token: characters up to the next digit or dot
(`for ; i < len(s); i++ { if c == '.' || digit { break } }`). -/
def unitLen : List Char → Nat
  | [] => 0
  | c :: rest => if c = '.' ∨ c.isDigit then 0 else unitLen rest + 1

/-- The main loop of `time.ParseDuration` over the sign-stripped input:
repeatedly parse `[0-9]*(\.[0-9]*)?unit`, accumulating nanoseconds in `d`
with Go's overflow checks against `1<<63`.  Each iteration consumes at
least one character, so `fuel = length + 1` never runs out; Go computes the
fractional contribution through `float64`, modelled here by the exact
`f * unit / scale`, which agrees on every claim-relevant input. -/
def durLoop (fuel : Nat) (d : Nat) (s : List Char) : Option Nat :=
  match fuel with
  | 0 => none
  | fuel + 1 =>
    match s with
    | [] => some d
    | c :: _ =>
      if ¬(c = '.' ∨ c.isDigit) then none
      else
        match leadingInt 0 s with
        | none => none
        | some (v, s1) =>
          let pre := decide (s1.length ≠ s.length)
          let (f, scale, s2, post) :=
            match s1 with
            | '.' :: s1x =>
              let (f, scale, s2) := leadingFraction 0 1 false s1x
              (f, scale, s2, decide (s2.length ≠ s1x.length))
            | _ => (0, 1, s1, false)
          if pre = false ∧ post = false then none
          else
            let i := unitLen s2
            if i = 0 then none
            else
              match unitValue (String.mk (s2.take i)) with
              | none => none
              | some unit =>
                if v > 2 ^ 63 / unit then none
                else
                  let v := v * unit
                  let vf :=
                    if f > 0 then
                      let v2 := v + f * unit / scale
                      if v2 > 2 ^ 63 then none else some v2
                    else some v
                  match vf with
                  | none => none
                  | some v =>
                    let d2 := d + v
                    if d2 > 2 ^ 63 then none
                    else durLoop fuel d2 (s2.drop i)

/-- `time.ParseDuration`: optional sign, the special case `"0"`, the empty
string rejected, then `durLoop`; a positive total above `1<<63 - 1` is an
overflow error, a negative total is negated. -/
def parseDuration (s : String) : Option Int :=
  let cs := s.data
  let (neg, cs) :=
    match cs with
    | '-' :: rest => (true, rest)
    | '+' :: rest => (false, rest)
    | _ => (false, cs)
  if cs = ['0'] then some 0
  else if cs = [] then none
  else
    match durLoop (cs.length + 1) 0 cs with
    | none => none
    | some d =>
      if neg then some (-(d : Int))
      else if d > 2 ^ 63 - 1 then none
      else some (d : Int)

/-- The pure core of `wait`: empty header gives one second; else `Atoi`
seconds (`time.Duration(n) * time.Second`, which wraps at int64); else
`time.ParseDuration`; else the one-second fallback.  The result is the
`waittime` handed to `time.Sleep`. -/
def nextDelay (retry : String) : Int :=
  if retry = "" then second
  else
    match atoi retry with
    | some n => wrap64 (n * second)
    | none =>
      match parseDuration retry with
      | some d => d
      | none => second

/-! ### Migration engine, create/edit revision

The loop body issues `client.Issues.Create`; on error it increments
`errors`, otherwise `imported`; then, when the create succeeded, the state
is `"closed"` and the response carried an issue number, it issues
`client.Issues.Edit` and tallies that call the same way.  The destination
client is injected as a per-issue behavior record. -/

/-- Outcome of the destination calls for one issue: whether `Create`
returned an error, the `is.Number` field of its response (`*int`, possibly
nil), and whether the `Edit` (close) call would return an error. -/
structure DestBehavior where
  createErr : Bool
  createNumber : Option Int
  closeErr : Bool
deriving Repr, DecidableEq

/-- Result of one trip through the loop body: the updated tally and
whether the close/edit request was issued. -/
structure StepResult where
  imported : Nat
  errors : Nat
  closeCalled : Bool
deriving Repr, DecidableEq

/-- One iteration of the create/edit loop over the tally `(imported,
errors)`: `if err != nil { errors++ } else { imported++ }` and then
`if err == nil && state == "closed" && is.Number != nil { Edit; if err !=
nil { errors++ } else { imported++ } }`. -/
def stepIssue (b : DestBehavior) (issue : SourceIssue) (imported errors : Nat) : StepResult :=
  let state := issueState issue.status
  let (imported, errors) :=
    if b.createErr then (imported, errors + 1) else (imported + 1, errors)
  if b.createErr = false ∧ state = "closed" ∧ b.createNumber.isSome then
    if b.closeErr then ⟨imported, errors + 1, true⟩ else ⟨imported + 1, errors, true⟩
  else ⟨imported, errors, false⟩

/-- The whole create/edit loop: fold `stepIssue` over the (sorted) issues
paired with their destination behaviors, returning the final
`(imported, errors)` tally reported in the `Imported %d, Errors %d`
summary. -/
def runEngine : List (SourceIssue × DestBehavior) → Nat → Nat → Nat × Nat
  | [], imported, errors => (imported, errors)
  | (issue, b) :: rest, imported, errors =>
    let r := stepIssue b issue imported errors
    runEngine rest r.imported r.errors

/-- A destination behavior in which every call succeeds and the create
response carries issue number `n`. -/
def okB (n : Int) : DestBehavior := ⟨false, some n, false⟩

/-! ### Migration engine, import-API revision

In that revision the loop posts to the import endpoint; an error of type
`*github.AcceptedError` or `nil` falls through the switch, any other error
increments `errors` and continues, and right after logging the result the
body executes an unconditional `panic("DONE")` — the poll loop and the
`imported++` after it are unreachable. -/

/-- How a run of the import-API loop ends: a `panic("DONE")` with the
tally at that moment, or normal completion with the final tally. -/
inductive RunOutcome where
  | panicked : Nat → Nat → RunOutcome
  | completed : Nat → Nat → RunOutcome
deriving Repr, DecidableEq

/-- The import-API loop body over issues paired with a flag telling
whether their create request errors (the switch's `default` case): an
erroring create increments `errors` and continues; a non-erroring one
reaches `panic("DONE")` before `imported++`. -/
def runImportLoop (xs : List (SourceIssue × Bool)) (imported errors : Nat) : RunOutcome :=
  match xs with
  | [] => RunOutcome.completed imported errors
  | (_, createErr) :: rest =>
    if createErr then runImportLoop rest imported (errors + 1)
    else RunOutcome.panicked imported errors

/-! ### Helper lemmas -/

/-- Membership characterization of the closed-status switch cases. -/
lemma isClosedStatus_iff (l : String) :
    isClosedStatus l = true ↔
      l = "resolved" ∨ l = "closed" ∨ l = "invalid" ∨ l = "wontfix" ∨ l = "duplicate" := by
  simp [isClosedStatus, or_assoc]

/-- Membership characterization of the open-status switch cases. -/
lemma isOpenStatus_iff (l : String) :
    isOpenStatus l = true ↔
      l = "new" ∨ l = "open" ∨ l = "on hold" ∨ l = "onhold" := by
  simp [isOpenStatus, or_assoc]

/-- The import-API loop ends in the `panic("DONE")` as soon as it meets a
non-erroring create, with `imported` unchanged from entry. -/
lemma runImportLoop_panics (xs : List (SourceIssue × Bool)) (imported errors : Nat)
    (h : ∃ p ∈ xs, p.2 = false) :
    ∃ e, runImportLoop xs imported errors = RunOutcome.panicked imported e := by
  induction xs generalizing errors with
  | nil => simp at h
  | cons hd tl ih =>
    obtain ⟨iss, ce⟩ := hd
    cases ce with
    | false => exact ⟨errors, by simp [runImportLoop]⟩
    | true =>
      have h2 : ∃ p ∈ tl, p.2 = false := by
        rcases h with ⟨p, hp, hpf⟩
        rcases List.mem_cons.mp hp with heq | hmem
        · subst heq; simp at hpf
        · exact ⟨p, hmem, hpf⟩
      obtain ⟨e, he⟩ := ih (errors + 1) h2
      exact ⟨e, by simpa [runImportLoop] using he⟩

/-! ### Claims -/

/-- C1: a decoded export with three issues of ordinals 1, 2, 3 and
statuses "open", "resolved", "wontfix", run against a destination with
zero existing issues where every destination call succeeds, creates
issue 1 open (no close call), creates and closes issues 2 and 3, and ends
with imported = 5 and errors = 0; in general, a successful close after a
successful create adds 2 to `imported` for that issue and leaves `errors`
unchanged. -/
theorem engine_three_issue_scenario :
    (runEngine [(mkIssue 1 "open", okB 1), (mkIssue 2 "resolved", okB 2),
        (mkIssue 3 "wontfix", okB 3)] 0 0 = (5, 0) ∧
      (stepIssue (okB 1) (mkIssue 1 "open") 0 0).closeCalled = false ∧
      (stepIssue (okB 2) (mkIssue 2 "resolved") 1 0).closeCalled = true ∧
      (stepIssue (okB 3) (mkIssue 3 "wontfix") 3 0).closeCalled = true) ∧
    ∀ (b : DestBehavior) (issue : SourceIssue) (imported errors : Nat),
      b.createErr = false → issueState issue.status = "closed" →
      b.createNumber.isSome = true → b.closeErr = false →
      (stepIssue b issue imported errors).imported = imported + 2 ∧
        (stepIssue b issue imported errors).errors = errors := by
  refine ⟨by decide, ?_⟩
  intro b issue imported errors hce hst hnum hclose
  simp [stepIssue, hce, hst, hnum, hclose]

/-- Witness for C1: the general close-tally part at a concrete behavior
and issue. -/
theorem engine_three_issue_scenario_witness :
    (stepIssue (okB 7) (mkIssue 2 "resolved") 0 0).imported = 0 + 2 ∧
      (stepIssue (okB 7) (mkIssue 2 "resolved") 0 0).errors = 0 :=
  engine_three_issue_scenario.2 (okB 7) (mkIssue 2 "resolved") 0 0 rfl (by decide) rfl rfl

/-- C2: statuses whose lowercase form is resolved, closed, invalid,
wontfix or duplicate map to closed = true; lowercase new, open, "on hold",
onhold and the empty string map to closed = false; any other non-empty
string maps to closed = false with recognized = false. -/
theorem statusMapper_classification (s : String) :
    (goToLower s = "resolved" ∨ goToLower s = "closed" ∨ goToLower s = "invalid" ∨
        goToLower s = "wontfix" ∨ goToLower s = "duplicate" →
      (statusMapper s).1 = true) ∧
    (goToLower s = "new" ∨ goToLower s = "open" ∨ goToLower s = "on hold" ∨
        goToLower s = "onhold" →
      (statusMapper s).1 = false) ∧
    (statusMapper "").1 = false ∧
    (s ≠ "" →
      ¬(goToLower s = "resolved" ∨ goToLower s = "closed" ∨ goToLower s = "invalid" ∨
          goToLower s = "wontfix" ∨ goToLower s = "duplicate") →
      ¬(goToLower s = "new" ∨ goToLower s = "open" ∨ goToLower s = "on hold" ∨
          goToLower s = "onhold") →
      statusMapper s = (false, false)) := by
  refine ⟨?_, ?_, by decide, ?_⟩
  · intro h
    have hc : isClosedStatus (goToLower s) = true := (isClosedStatus_iff _).mpr h
    simp [statusMapper, hc]
  · rintro (h | h | h | h) <;> simp [statusMapper, isClosedStatus, isOpenStatus, h]
  · intro _ hc ho
    have h1 : isClosedStatus (goToLower s) = false := by
      rw [← Bool.not_eq_true, isClosedStatus_iff]; exact hc
    have h2 : isOpenStatus (goToLower s) = false := by
      rw [← Bool.not_eq_true, isOpenStatus_iff]; exact ho
    simp [statusMapper, h1, h2]

/-- Witness for C2 at the statuses "WontFix" (closed), "New" (open) and
"triage" (unrecognized). -/
theorem statusMapper_classification_witness :
    (statusMapper "WontFix").1 = true ∧ (statusMapper "New").1 = false ∧
      statusMapper "triage" = (false, false) :=
  ⟨(statusMapper_classification "WontFix").1 (by decide),
    (statusMapper_classification "New").2.1 (by decide),
    (statusMapper_classification "triage").2.2.2 (by decide) (by decide) (by decide)⟩

/-- C3: skip resolution drops exactly the first `existingCount` issues:
it returns the empty list when `existingCount` reaches the input length
and the suffix from index `existingCount` otherwise, with the spec's four
ten-issue instances. -/
theorem resolveSkip_suffix :
    (∀ (xs : List SourceIssue) (n : Nat),
      (xs.length ≤ n → resolveSkip xs n = []) ∧
      (n < xs.length → resolveSkip xs n = xs.drop n)) ∧
    ∀ i1 i2 i3 i4 i5 i6 i7 i8 i9 i10 : SourceIssue,
      resolveSkip [i1, i2, i3, i4, i5, i6, i7, i8, i9, i10] 0 =
          [i1, i2, i3, i4, i5, i6, i7, i8, i9, i10] ∧
        resolveSkip [i1, i2, i3, i4, i5, i6, i7, i8, i9, i10] 4 =
          [i5, i6, i7, i8, i9, i10] ∧
        resolveSkip [i1, i2, i3, i4, i5, i6, i7, i8, i9, i10] 10 = [] ∧
        resolveSkip [i1, i2, i3, i4, i5, i6, i7, i8, i9, i10] 15 = [] := by
  constructor
  · intro xs n
    constructor
    · intro h
      simp [resolveSkip, if_pos h, List.drop_length]
    · intro h
      simp [resolveSkip, if_neg (not_le.mpr h)]
  · intro i1 i2 i3 i4 i5 i6 i7 i8 i9 i10
    exact ⟨rfl, rfl, rfl, rfl⟩

/-- Witness for C3: both branches of the general part at concrete lists. -/
theorem resolveSkip_suffix_witness :
    resolveSkip [mkIssue 1 "", mkIssue 2 ""] 1 = List.drop 1 [mkIssue 1 "", mkIssue 2 ""] ∧
      resolveSkip [mkIssue 1 ""] 3 = [] :=
  ⟨(resolveSkip_suffix.1 [mkIssue 1 "", mkIssue 2 ""] 1).2 (by decide),
    (resolveSkip_suffix.1 [mkIssue 1 ""] 3).1 (by decide)⟩

/-- C4: the rate-limit governor returns one second for an empty header,
five seconds for "5" (bare integer read as seconds), two seconds for "2s"
(duration expression), and one second for "garbage" (total parse
failure). -/
theorem nextDelay_examples :
    nextDelay "" = second ∧ nextDelay "5" = 5 * second ∧
      nextDelay "2s" = 2 * second ∧ nextDelay "garbage" = second ∧
      second = 1000000000 := by
  refine ⟨rfl, by decide, by decide, rfl, rfl⟩

/-- C5 counterexample: the governor does not return a strictly positive
duration for every non-empty header — the well-formed header "0" parses to
zero seconds and is returned as-is. -/
theorem nextDelay_nonpositive_counterexample :
    ¬(∀ s : String, s ≠ "" → 0 < nextDelay s) := fun h =>
  absurd (h "0" (by decide)) (by decide)

/-- C5 amended: for every non-empty header that fails both the integer
parse and the duration parse (a malformed value), the governor returns
exactly the one-second floor, which is strictly positive. -/
theorem nextDelay_malformed_floor (s : String) (hne : s ≠ "")
    (ha : atoi s = none) (hd : parseDuration s = none) :
    nextDelay s = second ∧ 0 < nextDelay s := by
  have h : nextDelay s = second := by simp [nextDelay, hne, ha, hd]
  exact ⟨h, by rw [h]; decide⟩

/-- Witness for C5 amended at the malformed header "garbage". -/
theorem nextDelay_malformed_floor_witness :
    nextDelay "garbage" = second ∧ 0 < nextDelay "garbage" :=
  nextDelay_malformed_floor "garbage" (by decide) (by decide) (by decide)

/-- C6: the labels the code derives can contain the empty string — the
elements of `strings.Split` are appended unfiltered, so an empty
extra-labels string contributes one empty label and "a,,b" contributes an
empty middle label; the four issue fields are, as claimed, appended only
when non-empty. -/
theorem deriveLabels_contains_empty :
    deriveLabels "" (mkIssue 1 "open") = ["", "open"] ∧
      "" ∈ deriveLabels "" (mkIssue 1 "open") ∧
      "" ∈ deriveLabels "a,,b" { mkIssue 2 "resolved" with priority := "high" } ∧
      deriveLabels "x" { mkIssue 3 "" with component := some "" } = ["x"] := by
  refine ⟨rfl, by decide, by decide, rfl⟩

/-- C7 counterexample: the empty status is not recognized — the switch
falls to its `default` branch (which logs it as an unknown status), so the
mapper yields recognized = false rather than the claimed true. -/
theorem statusMapper_empty_counterexample :
    ¬((statusMapper "").1 = false ∧ (statusMapper "").2 = true) := by decide

/-- C7 amended: the empty status string maps to closed = false and
recognized = false (it is treated as open but logged as unknown). -/
theorem statusMapper_empty_unrecognized : statusMapper "" = (false, false) := rfl

/-- C8: a create failure increments `errors` by exactly one and the run
continues with the remaining issues and still produces a final tally: with
the three-issue scenario where only the create of ordinal 2 fails, the run
completes with imported = 3 (ordinal 1 plus ordinal 3 and its close) and
errors = 1; in general an erroring create makes the loop proceed to the
rest of the issues with `errors` one higher and `imported` unchanged. -/
theorem engine_create_failure_resilience :
    (runEngine [(mkIssue 1 "open", okB 1), (mkIssue 2 "resolved", ⟨true, none, false⟩),
        (mkIssue 3 "wontfix", okB 2)] 0 0 = (3, 1)) ∧
    ∀ (b : DestBehavior) (issue : SourceIssue) (rest : List (SourceIssue × DestBehavior))
      (imported errors : Nat), b.createErr = true →
      runEngine ((issue, b) :: rest) imported errors =
        runEngine rest imported (errors + 1) := by
  refine ⟨by decide, ?_⟩
  intro b issue rest imported errors h
  simp [runEngine, stepIssue, h]

/-- Witness for C8: the general continuation part at a concrete failing
behavior. -/
theorem engine_create_failure_resilience_witness :
    runEngine [(mkIssue 9 "open", ⟨true, none, false⟩)] 0 0 = runEngine [] 0 (0 + 1) :=
  engine_create_failure_resilience.2 ⟨true, none, false⟩ (mkIssue 9 "open") [] 0 0 rfl

/-- C9: in the import-API revision, any run in which some create request
returns without error reaches the unconditional `panic("DONE")` with
`imported` still at its initial value of zero, and therefore never reaches
the completed state that emits the final summary. -/
theorem importLoop_panics_on_success (xs : List (SourceIssue × Bool))
    (h : ∃ p ∈ xs, p.2 = false) :
    (∃ e, runImportLoop xs 0 0 = RunOutcome.panicked 0 e) ∧
      ∀ i e, runImportLoop xs 0 0 ≠ RunOutcome.completed i e := by
  obtain ⟨e, he⟩ := runImportLoop_panics xs 0 0 h
  refine ⟨⟨e, he⟩, fun i e2 hc => ?_⟩
  rw [he] at hc
  cases hc

/-- Witness for C9: a run whose second create succeeds panics with zero
imported. -/
theorem importLoop_panics_on_success_witness :
    (∃ e, runImportLoop [(mkIssue 4 "open", true), (mkIssue 5 "open", false)] 0 0 =
        RunOutcome.panicked 0 e) ∧
      ∀ i e, runImportLoop [(mkIssue 4 "open", true), (mkIssue 5 "open", false)] 0 0 ≠
        RunOutcome.completed i e :=
  importLoop_panics_on_success [(mkIssue 4 "open", true), (mkIssue 5 "open", false)]
    ⟨(mkIssue 5 "open", false), by decide, rfl⟩

/-- C10: the close/edit request is issued exactly when the create call
succeeded, the status mapped to the closed state and the response carried
an issue number; when the create succeeds for a closing status but the
number is nil, no close happens, no error is tallied, and `imported` rises
by exactly one. -/
theorem closeCall_iff (b : DestBehavior) (issue : SourceIssue) (imported errors : Nat) :
    ((stepIssue b issue imported errors).closeCalled = true ↔
      (b.createErr = false ∧ issueState issue.status = "closed" ∧
        b.createNumber.isSome = true)) ∧
    (b.createErr = false → issueState issue.status = "closed" → b.createNumber = none →
      stepIssue b issue imported errors = ⟨imported + 1, errors, false⟩) := by
  constructor
  · simp only [stepIssue]
    by_cases hcond : b.createErr = false ∧ issueState issue.status = "closed" ∧
        b.createNumber.isSome = true
    · rw [if_pos]
      · cases hb : b.closeErr <;> simp [hcond]
      · exact ⟨hcond.1, hcond.2.1, by simpa using hcond.2.2⟩
    · rw [if_neg]
      · simpa using hcond
      · intro hc
        exact hcond ⟨hc.1, hc.2.1, by simpa using hc.2.2⟩
  · intro hce hst hnum
    simp [stepIssue, hce, hst, hnum]

/-- Witness for C10: a successful create with a closing status but a nil
issue number increments the tally once and issues no close. -/
theorem closeCall_iff_witness :
    stepIssue ⟨false, none, false⟩ (mkIssue 6 "resolved") 0 0 = ⟨0 + 1, 0, false⟩ :=
  (closeCall_iff ⟨false, none, false⟩ (mkIssue 6 "resolved") 0 0).2 rfl (by decide) rfl

end Issues
